import Mathlib

/-
Verification of the cluster membership control plane found in
lxd/cluster/membership.go.

The Go source is shallowly embedded: pure roster computations become Lean
functions over explicit lists; the databases, the filesystem and the
outcome of network probes become explicit state or oracle parameters.
Remote RPCs and database writes are modelled as succeeding; claims about
error paths of those collaborators are out of scope of the statements
below.  Where a definition deviates from a literal transcription, a
comment on the definition explains which Go construct it models.
-/

namespace LXD

/-- Raft role of a cluster member, mirroring db.RaftRole
(RaftVoter, RaftStandBy, RaftSpare). -/
inductive RaftRole
  | voter
  | standby
  | spare
deriving DecidableEq, Repr

/-- Entry of the dqlite raft roster, mirroring db.RaftNode
(ID uint64, Address string, Role db.RaftRole). -/
structure RaftNode where
  id : Nat
  address : String
  role : RaftRole
deriving DecidableEq, Repr

/-- Source constant MaxVoters = 3. -/
def MaxVoters : Nat := 3

/-- Source constant MaxStandBys = 2. -/
def MaxStandBys : Nat := 2

/-- Number of roster entries holding a given role. -/
def countRole (nodes : List RaftNode) (r : RaftRole) : Nat :=
  (nodes.filter fun n => decide (n.role = r)).length

theorem countRole_nil (r : RaftRole) : countRole [] r = 0 := rfl

theorem countRole_cons (n : RaftNode) (l : List RaftNode) (r : RaftRole) :
    countRole (n :: l) r = countRole l r + (if n.role = r then 1 else 0) := by
  by_cases h : n.role = r <;> simp [countRole, List.filter_cons, h]

/-! ## Accept (membership.go lines 196-221)

After inserting the new member in the registry, Accept fetches the
current raft roster, counts voters and stand-bys with a single loop, and
appends the new node with a role chosen by capacity. -/

/-- One iteration of the role-counting loop in Accept. -/
def acceptStep (acc : Nat × Nat) (n : RaftNode) : Nat × Nat :=
  match n.role with
  | RaftRole.voter => (acc.1 + 1, acc.2)
  | RaftRole.standby => (acc.1, acc.2 + 1)
  | RaftRole.spare => acc

/-- The (voters, standbys) counters computed by the loop in Accept. -/
def acceptCounts (nodes : List RaftNode) : Nat × Nat :=
  nodes.foldl acceptStep (0, 0)

/-- Roster part of Accept: the new node starts as spare, is upgraded to
voter when the existing roster has more than one entry and voter capacity
remains, else to stand-by when stand-by capacity remains, and is appended
to the roster.  `id` is the registry id assigned by the preceding insert. -/
def Accept (nodes : List RaftNode) (id : Nat) (address : String) : List RaftNode :=
  let counts := acceptCounts nodes
  let role :=
    if nodes.length > 1 ∧ counts.1 < MaxVoters then RaftRole.voter
    else if counts.2 < MaxStandBys then RaftRole.standby
    else RaftRole.spare
  nodes ++ [{ id := id, address := address, role := role }]

theorem acceptCounts_go (l : List RaftNode) (a b : Nat) :
    l.foldl acceptStep (a, b) =
      (a + countRole l RaftRole.voter, b + countRole l RaftRole.standby) := by
  induction l generalizing a b with
  | nil => simp [countRole]
  | cons n rest ih =>
    cases hr : n.role <;>
      simp [List.foldl_cons, acceptStep, hr, ih, countRole_cons] <;> omega

theorem acceptCounts_eq (nodes : List RaftNode) :
    acceptCounts nodes =
      (countRole nodes RaftRole.voter, countRole nodes RaftRole.standby) := by
  simpa using acceptCounts_go nodes 0 0

/-- C4: the appended node is a voter exactly when the pre-existing roster
has more than one member and fewer than MaxVoters voters, otherwise a
stand-by when fewer than MaxStandBys stand-bys exist, otherwise a spare;
the returned roster is the input roster with exactly that node appended. -/
theorem accept_role_policy (nodes : List RaftNode) (id : Nat) (address : String) :
    Accept nodes id address =
      nodes ++ [{ id := id, address := address, role :=
        if nodes.length > 1 ∧ countRole nodes RaftRole.voter < MaxVoters then RaftRole.voter
        else if countRole nodes RaftRole.standby < MaxStandBys then RaftRole.standby
        else RaftRole.spare }] := by
  simp [Accept, acceptCounts_eq]

/-! ## Join: locating the self entry (membership.go lines 321-348)

The Go source locates the joining node in the provided roster with

  var info *db.RaftNode
  for _, node := range raftNodes {
      if node.Address == address {
          info = &node
      }
  }

and later passes `*info` to the leader Add RPC.  `info = &node` stores a
pointer to the per-loop variable `node`, which Go reuses across
iterations, so after the loop `*info` holds the value of the final
iteration: the last roster entry, independent of where the match
occurred.  The fold below tracks exactly that pair of facts: whether any
entry matched, and the current value of the loop variable. -/

/-- The raft node value that Join dereferences and hands to the leader
Add RPC; `none` models the nil pointer (the source panics in that case). -/
def joinInfo (raftNodes : List RaftNode) (address : String) : Option RaftNode :=
  let st := raftNodes.foldl
    (fun acc n => ((acc.1 || decide (n.address = address)), some n))
    ((false, none) : Bool × Option RaftNode)
  if st.1 then st.2 else none

/-- C1 (code bug): with roster [(1,"a",voter), (2,"b",spare)] and local
address "a", the self entry is (1,"a",voter) yet the Add RPC argument is
the last roster entry (2,"b",spare), because `info` aliases the range
loop variable. -/
theorem join_rpc_carries_last_entry :
    (List.find? (fun n => decide (n.address = "a"))
        [({ id := 1, address := "a", role := RaftRole.voter } : RaftNode),
         { id := 2, address := "b", role := RaftRole.spare }] =
      some { id := 1, address := "a", role := RaftRole.voter }) ∧
    joinInfo
        [{ id := 1, address := "a", role := RaftRole.voter },
         { id := 2, address := "b", role := RaftRole.spare }] "a" =
      some { id := 2, address := "b", role := RaftRole.spare } := by
  constructor
  · rfl
  · rfl

/-! ## Rebalance (membership.go lines 481-597)

Rebalance first walks the roster: a member whose registry heartbeat is
stale (`isOff` oracle) and which is not already a spare is probed
(`probeOk` oracle); when the probe also fails it is demoted to spare in
the working roster and skipped, otherwise it is recorded in the voter,
stand-by or spare address list matching its role.  The demotion RPC and
the registry role removal are modelled as succeeding.  It then picks a
promotion target by capacity and promotes the first candidate.  The
`regAddr` oracle models the `nodesByAddress` registry lookup used when
reading back the chosen candidate address (it returns the empty string
when no registry row exists for that address). -/

/-- Accumulated result of the role-grouping walk at the start of
Rebalance. -/
structure RebalanceScan where
  nodes : List RaftNode
  voters : List String
  standbys : List String
  candidates : List String
deriving DecidableEq, Repr

/-- The grouping walk of Rebalance, with demotion of members that are
offline by heartbeat and fail the connectivity probe. -/
def rebalanceScan (isOff probeOk : String → Bool) : List RaftNode → RebalanceScan
  | [] => ⟨[], [], [], []⟩
  | n :: rest =>
    let s := rebalanceScan isOff probeOk rest
    if isOff n.address = true ∧ n.role ≠ RaftRole.spare ∧ probeOk n.address = false then
      ⟨{ n with role := RaftRole.spare } :: s.nodes, s.voters, s.standbys, s.candidates⟩
    else
      match n.role with
      | RaftRole.voter => ⟨n :: s.nodes, n.address :: s.voters, s.standbys, s.candidates⟩
      | RaftRole.standby => ⟨n :: s.nodes, s.voters, n.address :: s.standbys, s.candidates⟩
      | RaftRole.spare => ⟨n :: s.nodes, s.voters, s.standbys, n.address :: s.candidates⟩

/-- Final loop of Rebalance: change the role of the first roster entry
holding the given address. -/
def setFirstRole : List RaftNode → String → RaftRole → List RaftNode
  | [], _, _ => []
  | n :: rest, a, r =>
    if n.address = a then { n with role := r } :: rest
    else n :: setFirstRole rest a r

/-- Candidate selection and roster update of Rebalance: the first
candidate address is read back through the registry (`regAddr`); an empty
address means no node to promote. -/
def rebalancePick (regAddr : String → String) (s : RebalanceScan) (role : RaftRole)
    (cands : List String) : String × Option (List RaftNode) :=
  let address := match cands.head? with
    | none => ""
    | some c => regAddr c
  if address = "" then ("", some s.nodes)
  else (address, some (setFirstRole s.nodes address role))

/-- Rebalance with all remote calls succeeding: returns the promoted
address (empty when there is nothing to do) and the updated roster
(`none` models the nil roster returned on the full-capacity path). -/
def Rebalance (isOff probeOk : String → Bool) (regAddr : String → String)
    (nodes : List RaftNode) : String × Option (List RaftNode) :=
  let s := rebalanceScan isOff probeOk nodes
  if s.voters.length < MaxVoters ∧ 1 < s.voters.length then
    rebalancePick regAddr s RaftRole.voter (s.standbys ++ s.candidates)
  else if s.standbys.length < MaxStandBys then
    rebalancePick regAddr s RaftRole.standby s.candidates
  else ("", none)

/-- Specification-side roster update: the role of every entry holding the
chosen address becomes voter, all other entries are untouched. -/
def promoteSpec (nodes : List RaftNode) (a : String) : List RaftNode :=
  nodes.map fun n => if n.address = a then { n with role := RaftRole.voter } else n

/-- An entry of the output roster is a voter only if the matching entry of
the input roster already was one. -/
def noNewVoter (old new : RaftNode) : Prop :=
  new.role = RaftRole.voter → old.role = RaftRole.voter

theorem rebalanceScan_online (isOff probeOk : String → Bool) (nodes : List RaftNode)
    (hon : ∀ n ∈ nodes, isOff n.address = false) :
    rebalanceScan isOff probeOk nodes =
      ⟨nodes,
       (nodes.filter fun n => decide (n.role = RaftRole.voter)).map (fun n => n.address),
       (nodes.filter fun n => decide (n.role = RaftRole.standby)).map (fun n => n.address),
       (nodes.filter fun n => decide (n.role = RaftRole.spare)).map (fun n => n.address)⟩ := by
  induction nodes with
  | nil => rfl
  | cons n rest ih =>
    have hn : isOff n.address = false := hon n (by simp)
    have hrest : ∀ m ∈ rest, isOff m.address = false := fun m hm => hon m (by simp [hm])
    rw [rebalanceScan, ih hrest]
    cases hr : n.role <;> simp [hn, List.filter_cons, hr]

theorem rebalanceScan_voters_le (isOff probeOk : String → Bool) (nodes : List RaftNode) :
    (rebalanceScan isOff probeOk nodes).voters.length ≤ countRole nodes RaftRole.voter := by
  induction nodes with
  | nil => simp [rebalanceScan, countRole]
  | cons n rest ih =>
    rw [rebalanceScan]
    by_cases hc : isOff n.address = true ∧ n.role ≠ RaftRole.spare ∧ probeOk n.address = false
    · simp only [if_pos hc]
      calc (rebalanceScan isOff probeOk rest).voters.length
          ≤ countRole rest RaftRole.voter := ih
        _ ≤ countRole (n :: rest) RaftRole.voter := by
            rw [countRole_cons]; omega
    · simp only [if_neg hc]
      cases hr : n.role <;> simp [countRole_cons, hr] <;> omega

theorem rebalanceScan_pointwise (isOff probeOk : String → Bool) (nodes : List RaftNode) :
    List.Forall₂ (fun old new => new = old ∨ new = { old with role := RaftRole.spare })
      nodes (rebalanceScan isOff probeOk nodes).nodes := by
  induction nodes with
  | nil => exact List.Forall₂.nil
  | cons n rest ih =>
    rw [rebalanceScan]
    by_cases hc : isOff n.address = true ∧ n.role ≠ RaftRole.spare ∧ probeOk n.address = false
    · simp only [if_pos hc]
      exact List.Forall₂.cons (Or.inr rfl) ih
    · simp only [if_neg hc]
      cases hr : n.role <;> exact List.Forall₂.cons (Or.inl rfl) ih

theorem setFirstRole_pointwise (l : List RaftNode) (a : String) (r : RaftRole) :
    List.Forall₂ (fun old new => new = old ∨ new = { old with role := r })
      l (setFirstRole l a r) := by
  induction l with
  | nil => exact List.Forall₂.nil
  | cons n rest ih =>
    rw [setFirstRole]
    by_cases h : n.address = a
    · simp only [if_pos h]
      exact List.Forall₂.cons (Or.inr rfl)
        (List.forall₂_same.2 (fun x _ => Or.inl rfl))
    · simp only [if_neg h]
      exact List.Forall₂.cons (Or.inl rfl) ih

theorem forall₂_noNewVoter_trans {l1 l2 l3 : List RaftNode}
    (h12 : List.Forall₂ noNewVoter l1 l2) (h23 : List.Forall₂ noNewVoter l2 l3) :
    List.Forall₂ noNewVoter l1 l3 := by
  induction h12 generalizing l3 with
  | nil => cases h23; exact List.Forall₂.nil
  | cons hab h ih =>
    cases h23 with
    | cons hbc h' => exact List.Forall₂.cons (fun hv => hab (hbc hv)) (ih h')

theorem noNewVoter_of_spare_step {l l' : List RaftNode}
    (h : List.Forall₂ (fun old new => new = old ∨ new = { old with role := RaftRole.spare }) l l') :
    List.Forall₂ noNewVoter l l' := by
  induction h with
  | nil => exact List.Forall₂.nil
  | cons hab h ih =>
    refine List.Forall₂.cons ?_ ih
    rcases hab with h1 | h1
    · exact fun hv => h1 ▸ hv
    · intro hv
      rw [h1] at hv
      simp at hv

theorem noNewVoter_of_standby_step {l l' : List RaftNode}
    (h : List.Forall₂ (fun old new => new = old ∨ new = { old with role := RaftRole.standby }) l l') :
    List.Forall₂ noNewVoter l l' := by
  induction h with
  | nil => exact List.Forall₂.nil
  | cons hab h ih =>
    refine List.Forall₂.cons ?_ ih
    rcases hab with h1 | h1
    · exact fun hv => h1 ▸ hv
    · intro hv
      rw [h1] at hv
      simp at hv

/-- C2 counterexample: a roster with exactly one voter and one spare, all
members online, is not left alone: Rebalance promotes the spare to
stand-by and returns its address. -/
theorem rebalance_one_voter_counterexample :
    countRole [({ id := 1, address := "a", role := RaftRole.voter } : RaftNode),
               { id := 2, address := "b", role := RaftRole.spare }] RaftRole.voter = 1 ∧
    Rebalance (fun _ => false) (fun _ => true) (fun a => a)
        [{ id := 1, address := "a", role := RaftRole.voter },
         { id := 2, address := "b", role := RaftRole.spare }] =
      ("b", some [{ id := 1, address := "a", role := RaftRole.voter },
                  { id := 2, address := "b", role := RaftRole.standby }]) := by
  constructor
  · rfl
  · rfl

/-- C2 amended: on a roster with exactly one voter, Rebalance never
proposes promoting any member to voter — every entry of the returned
roster that is a voter already was one — though it may still demote
offline members to spare or promote a member to stand-by. -/
theorem rebalance_one_voter_no_voter_promotion
    (isOff probeOk : String → Bool) (regAddr : String → String)
    (nodes ns' : List RaftNode)
    (hv : countRole nodes RaftRole.voter = 1)
    (h : (Rebalance isOff probeOk regAddr nodes).2 = some ns') :
    List.Forall₂ noNewVoter nodes ns' := by
  have hle := rebalanceScan_voters_le isOff probeOk nodes
  rw [hv] at hle
  have hscan := noNewVoter_of_spare_step (rebalanceScan_pointwise isOff probeOk nodes)
  rw [Rebalance] at h
  have hcond : ¬ ((rebalanceScan isOff probeOk nodes).voters.length < MaxVoters ∧
      1 < (rebalanceScan isOff probeOk nodes).voters.length) := by
    rintro ⟨-, h2⟩; omega
  rw [if_neg hcond] at h
  by_cases hsb : (rebalanceScan isOff probeOk nodes).standbys.length < MaxStandBys
  · rw [if_pos hsb] at h
    rw [rebalancePick] at h
    by_cases ha : (match (rebalanceScan isOff probeOk nodes).candidates.head? with
        | none => ""
        | some c => regAddr c) = ""
    · simp only [if_pos ha, Option.some.injEq] at h
      exact h ▸ hscan
    · simp only [if_neg ha, Option.some.injEq] at h
      refine forall₂_noNewVoter_trans hscan ?_
      rw [← h]
      exact noNewVoter_of_standby_step
        (setFirstRole_pointwise (rebalanceScan isOff probeOk nodes).nodes _ RaftRole.standby)
  · rw [if_neg hsb] at h
    simp at h

/-- C2 amended, instantiated: the one-voter roster [(1,"a",voter),
(2,"b",spare)] with everything online yields the promoted roster
[(1,"a",voter), (2,"b",standby)], which creates no new voter. -/
theorem rebalance_one_voter_no_voter_promotion_witness :
    List.Forall₂ noNewVoter
      [({ id := 1, address := "a", role := RaftRole.voter } : RaftNode),
       { id := 2, address := "b", role := RaftRole.spare }]
      [{ id := 1, address := "a", role := RaftRole.voter },
       { id := 2, address := "b", role := RaftRole.standby }] :=
  rebalance_one_voter_no_voter_promotion (fun _ => false) (fun _ => true) (fun a => a)
    _ _ (by rfl) (by rfl)

theorem filter_head?_eq_find? {α : Type} (p : α → Bool) (l : List α) :
    (l.filter p).head? = l.find? p := by
  induction l with
  | nil => rfl
  | cons a l ih =>
    by_cases h : p a = true
    · simp [List.filter_cons, List.find?_cons, h]
    · simp [List.filter_cons, List.find?_cons, h, ih]

theorem map_head? {α β : Type} (f : α → β) (l : List α) :
    (l.map f).head? = l.head?.map f := by
  cases l <;> rfl

theorem map_id_of_eq {α : Type} (l : List α) (f : α → α) (h : ∀ a ∈ l, f a = a) :
    l.map f = l := by
  induction l with
  | nil => rfl
  | cons a l ih => simp [h a (by simp), ih (fun x hx => h x (by simp [hx]))]

theorem setFirstRole_eq_promoteSpec (nodes : List RaftNode) (a : String)
    (hnd : (nodes.map fun n => n.address).Nodup) :
    setFirstRole nodes a RaftRole.voter = promoteSpec nodes a := by
  induction nodes with
  | nil => rfl
  | cons n rest ih =>
    rw [List.map_cons, List.nodup_cons] at hnd
    obtain ⟨hna, hrest⟩ := hnd
    rw [setFirstRole, promoteSpec, List.map_cons]
    by_cases h : n.address = a
    · rw [if_pos h, if_pos h]
      congr 1
      refine (map_id_of_eq rest _ (fun m hm => ?_)).symm
      rw [if_neg]
      intro hma
      exact hna (h ▸ hma ▸ List.mem_map_of_mem (fun x => x.address) hm)
    · rw [if_neg h, if_neg h, ih hrest, promoteSpec]

/-- C5 counterexample: with roster [(1,"a",voter), (2,"b",voter),
(3,"c",standby), (4,"d",standby)] where member "c" is offline by
heartbeat and fails the probe, Rebalance selects a voter promotion (two
voters) yet skips the first stand-by "c" (demoting it to spare in the
returned roster) and promotes "d", so the chosen candidate is not the
first stand-by in original roster order and the returned roster differs
from the input in more than one entry. -/
theorem rebalance_demoted_standby_counterexample :
    (List.find? (fun n => decide (n.role = RaftRole.standby))
        [({ id := 1, address := "a", role := RaftRole.voter } : RaftNode),
         { id := 2, address := "b", role := RaftRole.voter },
         { id := 3, address := "c", role := RaftRole.standby },
         { id := 4, address := "d", role := RaftRole.standby }] =
      some { id := 3, address := "c", role := RaftRole.standby }) ∧
    Rebalance (fun a => decide (a = "c")) (fun _ => false) (fun a => a)
        [{ id := 1, address := "a", role := RaftRole.voter },
         { id := 2, address := "b", role := RaftRole.voter },
         { id := 3, address := "c", role := RaftRole.standby },
         { id := 4, address := "d", role := RaftRole.standby }] =
      ("d", some [{ id := 1, address := "a", role := RaftRole.voter },
                  { id := 2, address := "b", role := RaftRole.voter },
                  { id := 3, address := "c", role := RaftRole.spare },
                  { id := 4, address := "d", role := RaftRole.voter }]) := by
  constructor
  · rfl
  · rfl

/-- C5 amended: when every roster member is online (so the demotion pass
changes nothing), every member has a registry row carrying its own
non-empty address, addresses are distinct, and the voter count is
strictly between 1 and MaxVoters, Rebalance promotes the first stand-by
in original roster order if any stand-by exists and otherwise the first
spare, returning the input roster with exactly that entry changed to
voter; with neither stand-bys nor spares it reports nothing to do. -/
theorem rebalance_promotes_first_standby_then_spare
    (isOff probeOk : String → Bool) (regAddr : String → String) (nodes : List RaftNode)
    (hon : ∀ n ∈ nodes, isOff n.address = false)
    (hreg : ∀ n ∈ nodes, regAddr n.address = n.address)
    (haddr : ∀ n ∈ nodes, n.address ≠ "")
    (hnd : (nodes.map fun n => n.address).Nodup)
    (h1 : 1 < countRole nodes RaftRole.voter)
    (h2 : countRole nodes RaftRole.voter < MaxVoters) :
    Rebalance isOff probeOk regAddr nodes =
      match nodes.find? (fun n => decide (n.role = RaftRole.standby)) with
      | some b => (b.address, some (promoteSpec nodes b.address))
      | none =>
        match nodes.find? (fun n => decide (n.role = RaftRole.spare)) with
        | some c => (c.address, some (promoteSpec nodes c.address))
        | none => ("", some nodes) := by
  rw [Rebalance, rebalanceScan_online isOff probeOk nodes hon]
  dsimp only
  rw [if_pos ?hcond]
  case hcond =>
    constructor
    · simpa [List.length_map, countRole] using h2
    · simpa [List.length_map, countRole] using h1
  rw [rebalancePick]
  dsimp only
  cases hfs : nodes.find? (fun n => decide (n.role = RaftRole.standby)) with
  | some b =>
    have hb : (nodes.filter (fun n => decide (n.role = RaftRole.standby))).head? = some b := by
      rw [filter_head?_eq_find?, hfs]
    have hbm : b ∈ nodes :=
      List.mem_of_find?_eq_some hfs
    cases hsl : nodes.filter (fun n => decide (n.role = RaftRole.standby)) with
    | nil => rw [hsl] at hb; cases hb
    | cons x t =>
      rw [hsl] at hb
      have hx : x = b := by simpa using hb
      subst hx
      simp [hreg x hbm, haddr x hbm, setFirstRole_eq_promoteSpec nodes x.address hnd]
  | none =>
    have hsl : nodes.filter (fun n => decide (n.role = RaftRole.standby)) = [] := by
      rw [← List.head?_eq_none_iff, filter_head?_eq_find?, hfs]
    rw [hsl, List.map_nil, List.nil_append]
    cases hfc : nodes.find? (fun n => decide (n.role = RaftRole.spare)) with
    | some c =>
      have hc : (nodes.filter (fun n => decide (n.role = RaftRole.spare))).head? = some c := by
        rw [filter_head?_eq_find?, hfc]
      have hcm : c ∈ nodes :=
        List.mem_of_find?_eq_some hfc
      cases hcl : nodes.filter (fun n => decide (n.role = RaftRole.spare)) with
      | nil => rw [hcl] at hc; cases hc
      | cons x t =>
        rw [hcl] at hc
        have hx : x = c := by simpa using hc
        subst hx
        simp [hreg x hcm, haddr x hcm, setFirstRole_eq_promoteSpec nodes x.address hnd]
    | none =>
      have hcl : nodes.filter (fun n => decide (n.role = RaftRole.spare)) = [] := by
        rw [← List.head?_eq_none_iff, filter_head?_eq_find?, hfc]
      rw [hcl, List.map_nil]
      simp

/-- C5 amended, instantiated: an all-online roster with two voters, one
stand-by "c" and one spare "d" promotes the stand-by "c" to voter and
leaves every other entry unchanged. -/
theorem rebalance_promotes_first_standby_witness :
    Rebalance (fun _ => false) (fun _ => true) (fun a => a)
        [({ id := 1, address := "a", role := RaftRole.voter } : RaftNode),
         { id := 2, address := "b", role := RaftRole.voter },
         { id := 3, address := "c", role := RaftRole.standby },
         { id := 4, address := "d", role := RaftRole.spare }] =
      ("c", some [{ id := 1, address := "a", role := RaftRole.voter },
                  { id := 2, address := "b", role := RaftRole.voter },
                  { id := 3, address := "c", role := RaftRole.voter },
                  { id := 4, address := "d", role := RaftRole.spare }]) := by
  have h := rebalance_promotes_first_standby_then_spare
    (fun _ => false) (fun _ => true) (fun a => a)
    [({ id := 1, address := "a", role := RaftRole.voter } : RaftNode),
     { id := 2, address := "b", role := RaftRole.voter },
     { id := 3, address := "c", role := RaftRole.standby },
     { id := 4, address := "d", role := RaftRole.spare }]
    (by decide) (by intro n _; rfl) (by decide) (by decide) (by decide) (by decide)
  exact h.trans (by rfl)

/-! ## Handover (membership.go lines 816-855)

Handover first scans the roster for the leaving address: the first entry
with that address decides — a non-voter means nothing to do, a voter
means a replacement is searched.  When no entry matches, the source
builds its error with pkg/errors Wrapf over the nil error value left by
the earlier successful currentRaftNodes call; Wrapf returns nil for a nil
base error, so no error is actually reported.  The replacement scan
promotes the first entry that is not a voter, is not the leaving node and
is classified online (the `online` oracle stands for isMemberOnline,
modelled as never failing). -/

/-- Outcome of the first loop of Handover. -/
inductive HandoverFind
  | notFound
  | notVoter
  | voterFound
deriving DecidableEq, Repr

/-- First loop of Handover: locate the first roster entry with the
leaving address and inspect its role. -/
def handoverFindSelf (address : String) : List RaftNode → HandoverFind
  | [] => HandoverFind.notFound
  | n :: rest =>
    if n.address = address then
      (if n.role = RaftRole.voter then HandoverFind.voterFound else HandoverFind.notVoter)
    else handoverFindSelf address rest

/-- Second loop of Handover: skip voters, the leaving node and offline
members; promote the first remaining entry to voter inside the roster. -/
def handoverScan (online : String → Bool) (address : String) :
    List RaftNode → Option (String × List RaftNode)
  | [] => none
  | n :: rest =>
    if n.role = RaftRole.voter ∨ n.address = address ∨ online n.address = false then
      match handoverScan online address rest with
      | none => none
      | some (a, rest') => some (a, n :: rest')
    else some (n.address, { n with role := RaftRole.voter } :: rest)

/-- pkg/errors Wrapf: wrapping a nil error yields nil. -/
def wrapf (e : Option String) (msg : String) : Option String :=
  match e with
  | none => none
  | some b => some (msg ++ ": " ++ b)

/-- Handover: returns the replacement address, the updated roster and the
error value. -/
def Handover (online : String → Bool) (nodes : List RaftNode) (address : String) :
    String × Option (List RaftNode) × Option String :=
  match handoverFindSelf address nodes with
  | HandoverFind.notVoter => ("", none, none)
  | HandoverFind.notFound =>
      ("", none, wrapf none ("No dqlite node has address " ++ address))
  | HandoverFind.voterFound =>
    match handoverScan online address nodes with
    | some (a, ns) => (a, some ns, none)
    | none => ("", none, none)

/-- A roster entry eligible to replace the leaving voter: not a voter,
not the leaving node, classified online. -/
abbrev handoverCandidate (online : String → Bool) (address : String) (n : RaftNode) : Prop :=
  n.role ≠ RaftRole.voter ∧ n.address ≠ address ∧ online n.address = true

/-- C3 (code bug): calling Handover with an address held by no roster
entry returns an empty address, no roster and a nil error — the intended
"No dqlite node has address" failure is swallowed because it is built by
wrapping a nil base error. -/
theorem handover_missing_address_returns_no_error :
    (List.find? (fun n => decide (n.address = "b"))
        [({ id := 1, address := "a", role := RaftRole.voter } : RaftNode)] = none) ∧
    Handover (fun _ => true)
        [{ id := 1, address := "a", role := RaftRole.voter }] "b" =
      ("", none, none) := by
  constructor
  · rfl
  · rfl

theorem handoverFindSelf_of_find? (address : String) (nodes : List RaftNode) (e : RaftNode)
    (he : nodes.find? (fun n => decide (n.address = address)) = some e) :
    handoverFindSelf address nodes =
      (if e.role = RaftRole.voter then HandoverFind.voterFound else HandoverFind.notVoter) := by
  induction nodes with
  | nil => cases he
  | cons n rest ih =>
    rw [handoverFindSelf]
    by_cases h : n.address = address
    · rw [if_pos h]
      simp [List.find?_cons, h] at he
      rw [he]
    · rw [if_neg h]
      simp [List.find?_cons, h] at he
      exact ih he

theorem handoverScan_none (online : String → Bool) (address : String) (l : List RaftNode)
    (h : ∀ m ∈ l, ¬ handoverCandidate online address m) :
    handoverScan online address l = none := by
  induction l with
  | nil => rfl
  | cons n rest ih =>
    have hn := h n (by simp)
    have hskip : n.role = RaftRole.voter ∨ n.address = address ∨ online n.address = false := by
      by_contra hc
      push_neg at hc
      obtain ⟨h1, h2, h3⟩ := hc
      exact hn ⟨h1, h2, by cases hb : online n.address with
        | false => exact absurd hb h3
        | true => rfl⟩
    rw [handoverScan, if_pos hskip, ih (fun m hm => h m (by simp [hm]))]

theorem handoverScan_split (online : String → Bool) (address : String)
    (l1 l2 : List RaftNode) (c : RaftNode)
    (h1 : ∀ m ∈ l1, ¬ handoverCandidate online address m)
    (hc : handoverCandidate online address c) :
    handoverScan online address (l1 ++ c :: l2) =
      some (c.address, l1 ++ { c with role := RaftRole.voter } :: l2) := by
  induction l1 with
  | nil =>
    obtain ⟨hr, ha, ho⟩ := hc
    have hskip : ¬ (c.role = RaftRole.voter ∨ c.address = address ∨
        online c.address = false) := by
      rintro (h | h | h)
      · exact hr h
      · exact ha h
      · rw [ho] at h; cases h
    rw [List.nil_append, handoverScan, if_neg hskip, List.nil_append]
  | cons n rest ih =>
    have hn := h1 n (by simp)
    have hskip : n.role = RaftRole.voter ∨ n.address = address ∨ online n.address = false := by
      by_contra hcon
      push_neg at hcon
      obtain ⟨g1, g2, g3⟩ := hcon
      exact hn ⟨g1, g2, by cases hb : online n.address with
        | false => exact absurd hb g3
        | true => rfl⟩
    rw [List.cons_append, handoverScan, if_pos hskip,
      ih (fun m hm => h1 m (by simp [hm]))]
    rfl

/-- C6: when a roster entry holds the leaving address, Handover returns
nothing to do if that entry is not a voter; otherwise it promotes the
first entry that is a non-voter, is not the leaving node and is online,
returning its address and the roster with exactly that entry changed to
voter, and returns nothing to do without error when no such entry
exists. -/
theorem handover_existing_entry_cases
    (online : String → Bool) (nodes : List RaftNode) (address : String) (e : RaftNode)
    (he : nodes.find? (fun n => decide (n.address = address)) = some e) :
    (e.role ≠ RaftRole.voter → Handover online nodes address = ("", none, none)) ∧
    (e.role = RaftRole.voter →
      ((∀ m ∈ nodes, ¬ handoverCandidate online address m) →
        Handover online nodes address = ("", none, none)) ∧
      (∀ l1 c l2, nodes = l1 ++ c :: l2 →
        (∀ m ∈ l1, ¬ handoverCandidate online address m) →
        handoverCandidate online address c →
        Handover online nodes address =
          (c.address, some (l1 ++ { c with role := RaftRole.voter } :: l2), none))) := by
  have hfind := handoverFindSelf_of_find? address nodes e he
  constructor
  · intro hnv
    rw [Handover, hfind, if_neg hnv]
  · intro hv
    constructor
    · intro hnone
      rw [Handover, hfind, if_pos hv, handoverScan_none online address nodes hnone]
    · intro l1 c l2 hsplit hl1 hc
      rw [Handover, hfind, if_pos hv, hsplit,
        handoverScan_split online address l1 l2 c hl1 hc]

/-- C6, instantiated: leaving voter "a" with online spare "b" hands over
to "b", which becomes a voter in the returned roster. -/
theorem handover_existing_entry_cases_witness :
    Handover (fun _ => true)
        [({ id := 1, address := "a", role := RaftRole.voter } : RaftNode),
         { id := 2, address := "b", role := RaftRole.spare }] "a" =
      ("b", some [{ id := 1, address := "a", role := RaftRole.voter },
                  { id := 2, address := "b", role := RaftRole.voter }], none) := by
  have h := handover_existing_entry_cases (fun _ => true)
    [({ id := 1, address := "a", role := RaftRole.voter } : RaftNode),
     { id := 2, address := "b", role := RaftRole.spare }] "a"
    { id := 1, address := "a", role := RaftRole.voter } (by rfl)
  have h2 := (h.2 rfl).2
    [{ id := 1, address := "a", role := RaftRole.voter }]
    { id := 2, address := "b", role := RaftRole.spare } [] rfl
    (by intro m hm
        simp only [List.mem_singleton] at hm
        subst hm
        rintro ⟨hr, -, -⟩
        exact hr rfl)
    (by refine ⟨?_, ?_, rfl⟩
        · intro hr; cases hr
        · intro ha; exact absurd ha (by decide))
  exact h2

/-! ## Registry rows and the liveness probe (membership.go lines 858-885)

Registry rows mirror db.NodeInfo.  Timestamps are natural numbers; the
probe transport is an oracle.  Fields irrelevant to a given claim keep
their zero value. -/

/-- Registry row, mirroring db.NodeInfo. -/
structure NodeInfo where
  id : Nat := 0
  name : String := ""
  address : String := ""
  schema : Nat := 0
  apiExtensions : Nat := 0
  architecture : Nat := 0
  roles : List String := []
  heartbeat : Nat := 0
deriving DecidableEq, Repr

/-- Modelled from the spec: db.NodeInfo.IsOffline is not under src/; per
the spec, a member is tentatively offline when its last heartbeat is
older than the cluster-wide offline threshold. -/
def NodeInfo.IsOffline (n : NodeInfo) (threshold now : Nat) : Bool :=
  decide (n.heartbeat + threshold < now)

/-- isMemberOnline: first classify by heartbeat, then — only when the
heartbeat is stale — consult the TLS connectivity probe (`probeOk`
oracle).  The second component counts how many times the probe transport
was invoked; database reads are modelled as succeeding. -/
def isMemberOnline (probeOk : String → Bool) (threshold now : Nat) (n : NodeInfo) :
    Bool × Nat :=
  let online := ! n.IsOffline threshold now
  if online = false then (probeOk n.address, 1) else (online, 0)

/-- C9: a member is classified online exactly when its heartbeat is
within the offline threshold or the heartbeat is stale and the
connectivity probe succeeds; the probe is consulted exactly when the
heartbeat is stale, so a recent heartbeat yields online with no probe. -/
theorem is_member_online_heartbeat_or_probe (probeOk : String → Bool)
    (threshold now : Nat) (n : NodeInfo) :
    ((isMemberOnline probeOk threshold now n).1 = true ↔
      (now ≤ n.heartbeat + threshold ∨
        (n.heartbeat + threshold < now ∧ probeOk n.address = true))) ∧
    (isMemberOnline probeOk threshold now n).2 =
      (if n.heartbeat + threshold < now then 1 else 0) := by
  by_cases h : n.heartbeat + threshold < now
  · have h2 : ¬ now ≤ n.heartbeat + threshold := by omega
    constructor
    · simp [isMemberOnline, NodeInfo.IsOffline, h, h2]
    · simp [isMemberOnline, NodeInfo.IsOffline, h]
  · have h2 : now ≤ n.heartbeat + threshold := by omega
    constructor
    · simp [isMemberOnline, NodeInfo.IsOffline, h, h2]
    · simp [isMemberOnline, NodeInfo.IsOffline, h]

/-! ## Accept precondition (membership.go lines 1059-1088) -/

/-- Member-by-member loop of membershipCheckClusterStateForAccept:
duplicate name, duplicate address, schema mismatch and API mismatch are
rejected in that order. -/
def acceptLoop (name address : String) (schema api : Nat) : List NodeInfo → Option String
  | [] => none
  | n :: rest =>
    if n.name = name then
      some ("The cluster already has a member with name: " ++ name)
    else if n.address = address then
      some ("The cluster already has a member with address: " ++ address)
    else if n.schema ≠ schema then
      some "The joining server version does not match (DB schema)"
    else if n.apiExtensions ≠ api then
      some "The joining server version does not match (API count)"
    else acceptLoop name address schema api rest

/-- membershipCheckClusterStateForAccept: reject when clustering is not
enabled (a single registry row with address 0.0.0.0), then run the
member-by-member loop. -/
def membershipCheckClusterStateForAccept (nodes : List NodeInfo)
    (name address : String) (schema api : Nat) : Option String :=
  if nodes.length = 1 ∧ Option.any (fun n => decide (n.address = "0.0.0.0")) nodes.head? then
    some "Clustering is not enabled"
  else acceptLoop name address schema api nodes

theorem acceptLoop_eq_none_iff (name address : String) (schema api : Nat)
    (nodes : List NodeInfo) :
    acceptLoop name address schema api nodes = none ↔
      ∀ n ∈ nodes, n.name ≠ name ∧ n.address ≠ address ∧
        n.schema = schema ∧ n.apiExtensions = api := by
  induction nodes with
  | nil => simp [acceptLoop]
  | cons n rest ih =>
    rw [acceptLoop]
    by_cases h1 : n.name = name
    · simp [h1]
    · rw [if_neg h1]
      by_cases h2 : n.address = address
      · simp [h1, h2]
      · rw [if_neg h2]
        by_cases h3 : n.schema ≠ schema
        · simp [h1, h2, h3]
        · rw [if_neg h3]
          push_neg at h3
          by_cases h4 : n.apiExtensions ≠ api
          · simp [h1, h2, h3, h4]
          · rw [if_neg h4]
            push_neg at h4
            simp [ih, h1, h2, h3, h4]

/-- C8: the Accept precondition check succeeds exactly when the registry
is not a single row with address 0.0.0.0, no existing member shares the
requested name or address, and every existing member agrees on the schema
and API extension counts. -/
theorem accept_check_fails_iff (nodes : List NodeInfo) (name address : String)
    (schema api : Nat) :
    membershipCheckClusterStateForAccept nodes name address schema api = none ↔
      ¬ ((∃ n, nodes = [n] ∧ n.address = "0.0.0.0") ∨
         (∃ n ∈ nodes, n.name = name) ∨
         (∃ n ∈ nodes, n.address = address) ∨
         (∃ n ∈ nodes, n.schema ≠ schema) ∨
         (∃ n ∈ nodes, n.apiExtensions ≠ api)) := by
  rw [membershipCheckClusterStateForAccept]
  by_cases hgate : nodes.length = 1 ∧
      Option.any (fun n => decide (n.address = "0.0.0.0")) nodes.head?
  · rw [if_pos hgate]
    obtain ⟨hlen, hhd⟩ := hgate
    obtain ⟨n, hn⟩ : ∃ m, nodes = [m] := by
      cases nodes with
      | nil => simp at hlen
      | cons a l =>
        cases l with
        | nil => exact ⟨a, rfl⟩
        | cons b m => simp at hlen
    subst hn
    simp only [List.head?_cons] at hhd
    have hna : n.address = "0.0.0.0" := by
      simpa [Option.any] using hhd
    exact iff_of_false (by simp) (fun hcon => hcon (Or.inl ⟨n, rfl, hna⟩))
  · rw [if_neg hgate]
    rw [acceptLoop_eq_none_iff]
    constructor
    · intro hall
      rintro (⟨n, hn, ha⟩ | ⟨n, hn, h⟩ | ⟨n, hn, h⟩ | ⟨n, hn, h⟩ | ⟨n, hn, h⟩)
      · exact hgate ⟨by simp [hn], by simp [hn, ha]⟩
      · exact (hall n hn).1 h
      · exact (hall n hn).2.1 h
      · exact h (hall n hn).2.2.1
      · exact h (hall n hn).2.2.2
    · intro hcon n hn
      refine ⟨fun h => hcon (Or.inr (Or.inl ⟨n, hn, h⟩)),
        fun h => hcon (Or.inr (Or.inr (Or.inl ⟨n, hn, h⟩))), ?_, ?_⟩
      · by_contra h
        exact hcon (Or.inr (Or.inr (Or.inr (Or.inl ⟨n, hn, h⟩))))
      · by_contra h
        exact hcon (Or.inr (Or.inr (Or.inr (Or.inr ⟨n, hn, h⟩))))

/-! ## Bootstrap (membership.go lines 30-150 and the checks at 1019-1122)

The state visible to Bootstrap: the var-dir file names, the node-local
configuration and raft cache, and the replicated registry.  Gateway
shutdown, re-initialisation and leadership wait have no effect on this
state and are modelled as succeeding; the databases commit each
transaction that returns without error.  Bootstrap returns the resulting
state together with the error value, so state mutated before a failing
step remains visible. -/

/-- State over which Bootstrap is modelled. -/
structure BootState where
  files : List String
  clusterAddress : String
  raftNodes : List String
  nodes : List NodeInfo
deriving DecidableEq, Repr

/-- membershipCheckNoLeftoverClusterCert: reject when any cluster
certificate file already exists. -/
def membershipCheckNoLeftoverClusterCert (files : List String) : Option String :=
  if "cluster.crt" ∈ files ∨ "cluster.key" ∈ files ∨ "cluster.ca" ∈ files then
    some "inconsistent state: found leftover cluster certificate"
  else none

/-- membershipCheckNodeStateForBootstrapOrJoin over the node-local state. -/
def membershipCheckNodeStateForBootstrapOrJoin (raftNodes : List String)
    (address : String) : Option String :=
  if ¬ address ≠ "" ∧ raftNodes ≠ [] then
    some "inconsistent state: found leftover entries in raft_nodes"
  else if ¬ address ≠ "" then
    some "no cluster.https_address config is set on this node"
  else if raftNodes ≠ [] then
    some "the node is already part of a cluster"
  else none

/-- membershipCheckClusterStateForBootstrapOrJoin: the registry must hold
exactly one row. -/
def membershipCheckClusterStateForBootstrapOrJoin (nodes : List NodeInfo) : Option String :=
  if nodes.length ≠ 1 then some "inconsistent state: found leftover entries in nodes"
  else none

/-- NodeUpdate: set name and address of the registry row with the given
id. -/
def nodeUpdate (nodes : List NodeInfo) (id : Nat) (name address : String) : List NodeInfo :=
  nodes.map fun r => if r.id = id then { r with name := name, address := address } else r

/-- NodeAddRole: append an application role to the registry row with the
given id. -/
def nodeAddRole (nodes : List NodeInfo) (id : Nat) (role : String) : List NodeInfo :=
  nodes.map fun r => if r.id = id then { r with roles := r.roles ++ [role] } else r

/-- os.Symlink: fails when the link name already exists, otherwise adds
the name to the directory. -/
def symlink (files : List String) (newname : String) : Except String (List String) :=
  if newname ∈ files then Except.error "failed to create cluster cert symlink"
  else Except.ok (files ++ [newname])

/-- The cluster certificate loop of Bootstrap: cluster.crt and
cluster.key always, cluster.ca only when server.ca exists. -/
def bootstrapCerts (files : List String) : List String × Option String :=
  match symlink files "cluster.crt" with
  | Except.error e => (files, some e)
  | Except.ok f1 =>
    match symlink f1 "cluster.key" with
    | Except.error e => (f1, some e)
    | Except.ok f2 =>
      if "server.ca" ∈ f2 then
        match symlink f2 "cluster.ca" with
        | Except.error e => (f2, some e)
        | Except.ok f3 => (f3, none)
      else (f2, none)

/-- Bootstrap: parameter check, leftover-certificate check, node-local
transaction (state check, then insert of the first raft node), replicated
transaction (state check, then self-row update and database role), then
the certificate symlinks.  Gateway reconfiguration and the final probe
transaction do not touch the modelled state. -/
def Bootstrap (s : BootState) (name : String) : BootState × Option String :=
  if name = "" then (s, some "node name must not be empty")
  else
    match membershipCheckNoLeftoverClusterCert s.files with
    | some e => (s, some e)
    | none =>
      match membershipCheckNodeStateForBootstrapOrJoin s.raftNodes s.clusterAddress with
      | some e => (s, some e)
      | none =>
        let s1 : BootState := { s with raftNodes := [s.clusterAddress] }
        match membershipCheckClusterStateForBootstrapOrJoin s1.nodes with
        | some e => (s1, some e)
        | none =>
          let s2 : BootState :=
            { s1 with nodes := nodeAddRole (nodeUpdate s1.nodes 1 name s1.clusterAddress) 1 "database" }
          let bc := bootstrapCerts s2.files
          ({ s2 with files := bc.1 }, bc.2)

theorem symlink_ok_mem (files f : List String) (newname : String)
    (h : symlink files newname = Except.ok f) (x : String) (hx : x ∈ files ∨ x = newname) :
    x ∈ f := by
  rw [symlink] at h
  by_cases hm : newname ∈ files
  · rw [if_pos hm] at h; cases h
  · rw [if_neg hm] at h
    cases h
    rcases hx with hx | hx
    · exact List.mem_append_left _ hx
    · exact hx ▸ List.mem_append_right _ (by simp)

theorem bootstrapCerts_ok_crt (files : List String) (f : List String)
    (h : bootstrapCerts files = (f, none)) : "cluster.crt" ∈ f := by
  rw [bootstrapCerts] at h
  cases h1 : symlink files "cluster.crt" with
  | error e => rw [h1] at h; cases h
  | ok f1 =>
    rw [h1] at h
    dsimp only at h
    have hf1 : "cluster.crt" ∈ f1 := symlink_ok_mem files f1 "cluster.crt" h1 _ (Or.inr rfl)
    cases h2 : symlink f1 "cluster.key" with
    | error e => rw [h2] at h; cases h
    | ok f2 =>
      rw [h2] at h
      dsimp only at h
      have hf2 : "cluster.crt" ∈ f2 := symlink_ok_mem f1 f2 "cluster.key" h2 _ (Or.inl hf1)
      by_cases hca : "server.ca" ∈ f2
      · rw [if_pos hca] at h
        cases h3 : symlink f2 "cluster.ca" with
        | error e => rw [h3] at h; cases h
        | ok f3 =>
          rw [h3] at h
          dsimp only at h
          cases h
          exact symlink_ok_mem f2 f "cluster.ca" h3 _ (Or.inl hf2)
      · rw [if_neg hca] at h
        cases h
        exact hf2

/-- C7: after a successful Bootstrap, running Bootstrap again with the
same name fails with the leftover-cluster-certificate precondition error
and returns the state unchanged: the check fires before any mutation. -/
theorem bootstrap_twice_fails_unchanged (s s' : BootState) (name : String)
    (h : Bootstrap s name = (s', none)) :
    Bootstrap s' name = (s', some "inconsistent state: found leftover cluster certificate") := by
  rw [Bootstrap] at h
  by_cases hname : name = ""
  · rw [if_pos hname] at h; cases h
  · rw [if_neg hname] at h
    cases hc : membershipCheckNoLeftoverClusterCert s.files with
    | some e => rw [hc] at h; cases h
    | none =>
      rw [hc] at h
      cases hn : membershipCheckNodeStateForBootstrapOrJoin s.raftNodes s.clusterAddress with
      | some e => rw [hn] at h; cases h
      | none =>
        rw [hn] at h
        cases hcl : membershipCheckClusterStateForBootstrapOrJoin s.nodes with
        | some e =>
          simp only [hcl] at h
          cases h
        | none =>
          simp only [hcl] at h
          obtain ⟨hs, herr⟩ := Prod.mk.inj h
          have hcrt : "cluster.crt" ∈ s'.files := by
            rw [← hs]
            exact bootstrapCerts_ok_crt _ _ (by rw [Prod.ext_iff]; exact ⟨rfl, herr⟩)
          rw [Bootstrap, if_neg hname]
          have : membershipCheckNoLeftoverClusterCert s'.files =
              some "inconsistent state: found leftover cluster certificate" := by
            rw [membershipCheckNoLeftoverClusterCert, if_pos (Or.inl hcrt)]
          rw [this]

/-- C7, instantiated: a fresh one-row state bootstrapped under the name
n1 rejects a second Bootstrap with the leftover-certificate error and is
returned unchanged. -/
theorem bootstrap_twice_fails_unchanged_witness :
    Bootstrap
      { files := ["server.crt", "server.key", "cluster.crt", "cluster.key"],
        clusterAddress := "10.0.0.1:8443",
        raftNodes := ["10.0.0.1:8443"],
        nodes := [{ id := 1, name := "n1", address := "10.0.0.1:8443",
                    roles := ["database"] }] } "n1" =
      ({ files := ["server.crt", "server.key", "cluster.crt", "cluster.key"],
         clusterAddress := "10.0.0.1:8443",
         raftNodes := ["10.0.0.1:8443"],
         nodes := [{ id := 1, name := "n1", address := "10.0.0.1:8443",
                     roles := ["database"] }] },
       some "inconsistent state: found leftover cluster certificate") :=
  bootstrap_twice_fails_unchanged
    { files := ["server.crt", "server.key"],
      clusterAddress := "10.0.0.1:8443",
      raftNodes := [],
      nodes := [{ id := 1 }] }
    _ "n1" (by decide)

/-! ## List (membership.go lines 912-988)

The List operation converts registry rows into API members.  The version
of a row and the version comparison live outside src/: `NodeInfo.version`
is modelled from the spec as the (schema, api_extensions) pair, and the
comparison and architecture-name lookups are oracle parameters that may
fail with a structured error.  Before iterating, the source reads
nodes[0].Version() unconditionally; on an empty registry this is an
out-of-bounds access, modelled by the crash outcome. -/

/-- Modelled from the spec: NodeInfo.Version is not under src/; per the
spec, upgrade status is decided by the pair of schema version and API
extension count. -/
def NodeInfo.version (n : NodeInfo) : Nat × Nat := (n.schema, n.apiExtensions)

/-- API member record, mirroring api.ClusterMember. -/
structure ClusterMember where
  serverName : String := ""
  url : String := ""
  database : Bool := false
  roles : List String := []
  architecture : String := ""
  status : String := ""
  message : String := ""
deriving DecidableEq, Repr

/-- Outcome of the List operation: a runtime crash (index out of range),
a structured error, or the member list. -/
inductive ListOutcome
  | crash
  | failure (msg : String)
  | ok (members : List ClusterMember)
deriving DecidableEq, Repr

/-- First loop of List: build each member record, classify it
Online/Offline by heartbeat, mark Broken on version-comparison failure,
and track the highest version seen (`cmp a b` answers 0 for equal, 1 when
b is older, 2 when b is newer, or a structured parse error). -/
def listFirstPass (cmp : Nat × Nat → Nat × Nat → Except String Nat)
    (archName : Nat → Except String String) (threshold now : Nat) :
    List NodeInfo → Nat × Nat → Except String (List ClusterMember × (Nat × Nat))
  | [], version => Except.ok ([], version)
  | node :: rest, version =>
    match archName node.architecture with
    | Except.error e => Except.error e
    | Except.ok arch =>
      let base : ClusterMember :=
        { serverName := node.name
          url := "https://" ++ node.address
          database := node.roles.contains "database"
          roles := node.roles
          architecture := arch }
      let m :=
        if node.IsOffline threshold now then
          { base with status := "Offline",
                      message := "no heartbeat since " ++ toString (now - node.heartbeat) }
        else
          { base with status := "Online", message := "fully operational" }
      match cmp version node.version with
      | Except.error _ =>
        match listFirstPass cmp archName threshold now rest version with
        | Except.error e => Except.error e
        | Except.ok (ms, v) =>
          Except.ok ({ m with status := "Broken", message := "inconsistent version" } :: ms, v)
      | Except.ok k =>
        match listFirstPass cmp archName threshold now rest
            (if k = 1 then node.version else version) with
        | Except.error e => Except.error e
        | Except.ok (ms, v) => Except.ok (m :: ms, v)

/-- Second loop of List: an Online member whose version is newer than the
final highest version becomes Blocked. -/
def listSecondPass (cmp : Nat × Nat → Nat × Nat → Except String Nat)
    (version : Nat × Nat) : List ClusterMember → List NodeInfo → List ClusterMember
  | [], _ => []
  | ms, [] => ms
  | m :: ms, node :: rest =>
    let m' :=
      if m.status ≠ "Online" then m
      else
        match cmp version node.version with
        | Except.error _ => m
        | Except.ok k =>
          if k = 2 then
            { m with status := "Blocked", message := "waiting for other nodes to be upgraded" }
          else m
    m' :: listSecondPass cmp version ms rest

/-- The List operation over the registry rows, with the database reads
modelled as succeeding. -/
def listMembers (cmp : Nat × Nat → Nat × Nat → Except String Nat)
    (archName : Nat → Except String String) (threshold now : Nat)
    (nodes : List NodeInfo) : ListOutcome :=
  match nodes.head? with
  | none => ListOutcome.crash
  | some first =>
    match listFirstPass cmp archName threshold now nodes first.version with
    | Except.error e => ListOutcome.failure e
    | Except.ok (ms, v) => ListOutcome.ok (listSecondPass cmp v ms nodes)

/-- C10: List crashes by out-of-bounds access exactly on an empty
registry — it reads the first row's version before iterating, so the
empty case yields no structured error, and a non-empty registry never
reaches that crash. -/
theorem list_crashes_iff_empty (cmp : Nat × Nat → Nat × Nat → Except String Nat)
    (archName : Nat → Except String String) (threshold now : Nat)
    (nodes : List NodeInfo) :
    listMembers cmp archName threshold now nodes = ListOutcome.crash ↔ nodes = [] := by
  cases nodes with
  | nil => simp [listMembers]
  | cons n rest =>
    simp only [listMembers, List.head?_cons]
    cases hf : listFirstPass cmp archName threshold now (n :: rest) n.version with
    | error e => simp
    | ok p => simp

end LXD
